import Mathlib

/-!
# Verification of the real-time session/transport layer

Shallow embedding of the client-side WebSocket service
(`src/frontend/src/services/authService.js`, `WebSocketService` class) and of
the room-session logic in `src/frontend/src/App.jsx`, together with theorems
settling the specification's claims about them.

Conventions of the embedding:
* JSON objects are association lists `List (String × JsVal)`; field access
  follows JavaScript semantics (first matching key; our objects keep keys
  unique, `setField` removes any previous binding).
* The service's mutable fields become a `WSState` record; each JS method or
  event handler becomes a pure function `WSState → ...` returning the updated
  state plus its observable effects (frames transmitted, handlers invoked).
* `console.log`/`console.error` calls are pure logging and are not modelled.
* A handler (a JS closure stored in `messageHandlers` / `eventHandlers`) is
  modelled by an id and by whether invoking it on a given frame throws; the
  dispatch claims only depend on invocation order and on throwing.
-/

/-- A JavaScript JSON value, restricted to the shapes the program exchanges:
strings, arrays of usernames, and `null`. -/
inductive JsVal where
  | vstr (s : String)
  | vlist (xs : List String)
  | vnull
deriving Repr, DecidableEq

/-- A JSON object: an association list from field names to values. -/
abbrev JsObj := List (String × JsVal)

/-- Field access `o[k]`: the first binding of `k`, or `none` (JS `undefined`). -/
def getField : JsObj → String → Option JsVal
  | [], _ => none
  | (k', v) :: rest, k => if k' = k then some v else getField rest k

/-- Field assignment with JavaScript object semantics: any previous binding of
`k` is replaced; lookups of other keys are unaffected.  (The JS object literal
`\x7b...message, timestamp: t, room_id: r\x7d` keeps the original key positions;
only lookup semantics matter here, so the new binding is appended.) -/
def setField (o : JsObj) (k : String) (v : JsVal) : JsObj :=
  o.filter (fun p => decide (p.1 ≠ k)) ++ [(k, v)]

/-- A registered message handler, modelled by an identifier and by whether
invoking it on a given decoded frame throws an exception. -/
structure Handler where
  hid : Nat
  throwsOn : JsObj → Bool

/-- The mutable fields of the `WebSocketService` class
(`authService.js`, constructor at lines 388–401).  `socket : Bool` records
whether `this.socket` is non-null. -/
structure WSState where
  socket : Bool
  isConnected : Bool
  reconnectAttempts : Nat
  maxReconnectAttempts : Nat
  reconnectDelay : Nat
  maxReconnectDelay : Nat
  currentRoom : Option String
  pendingMessages : List JsObj
  messageHandlers : List Handler
  eventHandlers : List (String × List Handler)

/-- The constructor's initial state: no socket, not connected, zero reconnect
attempts, limit 5, base delay 1000 ms, cap 30000 ms, no room, empty queue,
no handlers. -/
def freshService : WSState :=
  { socket := false
    isConnected := false
    reconnectAttempts := 0
    maxReconnectAttempts := 5
    reconnectDelay := 1000
    maxReconnectDelay := 30000
    currentRoom := none
    pendingMessages := []
    messageHandlers := []
    eventHandlers := [] }

/-- `this.currentRoom` serialized as a JSON value (`null` when absent). -/
def roomVal : Option String → JsVal
  | none => JsVal.vnull
  | some r => JsVal.vstr r

/-- The object `sendMessage` serializes when a channel is open:
`\x7b...message, timestamp: new Date().toISOString(), room_id: this.currentRoom\x7d`
— the two explicit fields overwrite caller-supplied ones. -/
def sendPayload (message : JsObj) (now : String) (room : Option String) : JsObj :=
  setField (setField message "timestamp" (JsVal.vstr now)) "room_id" (roomVal room)

/-- `WebSocketService.sendMessage` (lines 576–596).  `now` is the value of
`new Date().toISOString()`; `txOk` is whether `JSON.stringify` + `socket.send`
complete without throwing.  Returns the JS boolean result, the updated state,
and the transmitted serialized frame, if any.
* not connected or no socket: the message is pushed onto `pendingMessages`
  and the call returns `false`;
* otherwise the merged payload is built and sent; a throw is caught, logged,
  and the call returns `false` with no state change and no retry. -/
def sendMessage (st : WSState) (message : JsObj) (now : String) (txOk : Bool) :
    Bool × WSState × Option JsObj :=
  if !st.isConnected || !st.socket then
    (false, { st with pendingMessages := st.pendingMessages ++ [message] }, none)
  else if txOk then
    (true, st, some (sendPayload message now st.currentRoom))
  else
    (false, st, none)

/-- `socket.onopen` (lines 436–446): sets `isConnected`, resets
`reconnectAttempts` to 0 and `reconnectDelay` to 1000, then invokes `onOpen`
and resolves.  The body contains the comment "Envoyer les messages en attente"
but performs no call to `flushPendingMessages`, so the handler transmits
nothing: the second component, the list of frames sent during the open
transition, is empty. -/
def onOpen (st : WSState) : WSState × List JsObj :=
  ({ st with isConnected := true, reconnectAttempts := 0, reconnectDelay := 1000 }, [])

/-- `WebSocketService.disconnect` (lines 557–567): closes the socket with code
1000, clears `socket`, `isConnected`, `currentRoom`, both handler collections
and `pendingMessages`.  It does not touch `reconnectAttempts` or
`reconnectDelay`. -/
def disconnect (st : WSState) : WSState :=
  { st with
      socket := false
      isConnected := false
      currentRoom := none
      messageHandlers := []
      eventHandlers := []
      pendingMessages := [] }

/-- `WebSocketService.flushPendingMessages` (lines 648–653):
`while (pendingMessages.length > 0) \x7b const m = pendingMessages.shift(); sendMessage(m); \x7d`.
Modelled with fuel equal to the initial queue length; `none` means the loop
does not terminate within that budget (which is what the JS loop does when the
channel is not open: `sendMessage` pushes each shifted message right back).
Transmission is assumed not to throw (`txOk = true`). -/
def flushLoop (now : String) : Nat → WSState → List JsObj → Option (WSState × List JsObj)
  | 0, st, sent =>
    if st.pendingMessages.isEmpty then some (st, sent) else none
  | fuel + 1, st, sent =>
    match st.pendingMessages with
    | [] => some (st, sent)
    | m :: rest =>
      let st1 := { st with pendingMessages := rest }
      let r := sendMessage st1 m now true
      flushLoop now fuel r.2.1 (sent ++ r.2.2.toList)

def flushPendingMessages (st : WSState) (now : String) : Option (WSState × List JsObj) :=
  flushLoop now st.pendingMessages.length st []

/-- `WebSocketService.attemptReconnect` (lines 513–552), up to the scheduling
of the delayed retry.  `token` is the result of re-fetching `getAuthToken()`.
`none` means no retry is scheduled (missing token, or the attempt limit is
reached); otherwise the state with the incremented counter and the computed
delay `min(reconnectDelay * 2 ^ (attempts - 1), maxReconnectDelay)` are
returned. -/
def attemptReconnect (st : WSState) (token : Option String) :
    Option (WSState × Nat) :=
  match token with
  | none => none
  | some _ =>
    if st.reconnectAttempts ≥ st.maxReconnectAttempts then none
    else
      let st' := { st with reconnectAttempts := st.reconnectAttempts + 1 }
      some (st', min (st'.reconnectDelay * 2 ^ (st'.reconnectAttempts - 1))
                      st'.maxReconnectDelay)

/-- The delay (in ms) that `attemptReconnect` schedules from a given state,
when it schedules one. -/
def scheduledDelay (st : WSState) (token : Option String) : Option Nat :=
  (attemptReconnect st token).map Prod.snd

/-- What one `socket.onmessage` invocation did: the ids of the handlers that
were invoked (in order), whether the dispatcher itself propagated an
exception, and whether it closed the channel. -/
structure DispatchLog where
  invoked : List Nat
  dispatcherCrashed : Bool
  channelClosed : Bool
deriving Repr, DecidableEq

/-- `collection.forEach(handler => handler(data))` under a surrounding
`try`: handlers run in order until one throws; the throw aborts the loop.
Returns the ids of the invoked handlers and whether a throw occurred. -/
def runUntilThrow (hs : List Handler) (data : JsObj) : List Nat × Bool :=
  match hs with
  | [] => ([], false)
  | h :: rest =>
    if h.throwsOn data then ([h.hid], true)
    else
      let r := runUntilThrow rest data
      (h.hid :: r.1, r.2)

/-- Lookup in the `Map` `this.eventHandlers`. -/
def findEventHandlers : List (String × List Handler) → String → Option (List Handler)
  | [], _ => none
  | (t', hs) :: rest, t => if t' = t then some hs else findEventHandlers rest t

/-- `socket.onmessage` (lines 448–462).  `raw` is the result of
`JSON.parse(event.data)`: `none` models a payload that fails to parse (the
parse throws, the single `catch` logs the error and nothing else happens).
On a parsed frame, all general `messageHandlers` run, then — if
`data.event_type` is a truthy string registered in `eventHandlers` — the keyed
handlers run.  Everything is inside one `try/catch`, so the first handler that
throws aborts the rest of the round; the dispatcher itself never propagates
the exception and never touches the service state or the socket. -/
def onMessage (st : WSState) (raw : Option JsObj) : WSState × DispatchLog :=
  match raw with
  | none => (st, { invoked := [], dispatcherCrashed := false, channelClosed := false })
  | some data =>
    let g := runUntilThrow st.messageHandlers data
    if g.2 then
      (st, { invoked := g.1, dispatcherCrashed := false, channelClosed := false })
    else
      match getField data "event_type" with
      | some (JsVal.vstr t) =>
        if t = "" then
          (st, { invoked := g.1, dispatcherCrashed := false, channelClosed := false })
        else
          match findEventHandlers st.eventHandlers t with
          | some khs =>
            let kr := runUntilThrow khs data
            (st, { invoked := g.1 ++ kr.1, dispatcherCrashed := false, channelClosed := false })
          | none =>
            (st, { invoked := g.1, dispatcherCrashed := false, channelClosed := false })
      | _ => (st, { invoked := g.1, dispatcherCrashed := false, channelClosed := false })

/-- `getAuthToken` (`authService.js` lines 249–252):
`token && !isTokenExpired(token) ? token : null`.  `stored` is
`localStorage.getItem('auth_token')`; `isExp` abstracts `isTokenExpired` on
non-empty strings (for a missing or empty token `isTokenExpired` is `true`
and the `token &&` guard already yields `null`). -/
def getAuthToken (stored : Option String) (isExp : String → Bool) : Option String :=
  match stored with
  | none => none
  | some t => if t = "" then none else if isExp t then none else some t

/-- Outcome of the credential phase of `WebSocketService.connect`. -/
inductive ConnectOutcome where
  | authError
  | socketCreated (url : String)
deriving Repr, DecidableEq

/-- Observable effects of the credential phase of `connect`. -/
structure ConnectTrace where
  outcome : ConnectOutcome
  onErrorCalled : Bool
  reconnectScheduled : Bool
deriving Repr, DecidableEq

/-- The target address built by `connect` (line 430):
`${connectionUrl}/ws/chat/group/${encodeURIComponent(roomId)}?token=${encodeURIComponent(token)}`.
`enc` stands for `encodeURIComponent`. -/
def connectUrl (enc : String → String) (connectionUrl roomId token : String) : String :=
  connectionUrl ++ "/ws/chat/group/" ++ enc roomId ++ "?token=" ++ enc token

/-- `WebSocketService.connect`, credential phase (lines 411–434): refreshes
the token via `getAuthToken`; if none, calls `onError` and throws
(`'Non authentifié'`) before any `new WebSocket(...)` — so no socket is
constructed and nothing can schedule a reconnection (`attemptReconnect` is
only ever invoked from the `onclose` handler of a constructed socket).
Otherwise the socket is constructed on the built URL. -/
def connectAuthPhase (stored : Option String) (isExp : String → Bool)
    (enc : String → String) (connectionUrl roomId : String) : ConnectTrace :=
  match getAuthToken stored isExp with
  | none =>
    { outcome := ConnectOutcome.authError
      onErrorCalled := true
      reconnectScheduled := false }
  | some tok =>
    { outcome := ConnectOutcome.socketCreated (connectUrl enc connectionUrl roomId tok)
      onErrorCalled := false
      reconnectScheduled := false }

/-- The React component state of `App.jsx` that the message handler and the
room actions mutate. -/
structure AppState where
  currentUser : String
  room : String
  code : String
  messages : List JsObj
  users : List String
deriving Repr, DecidableEq

/-- The initial `useState` values of `App.jsx` (lines 17–21). -/
def initialAppState : AppState :=
  { currentUser := ""
    room := ""
    code := "// Commencez à coder...\n// Votre code sera synchronisé en temps réel"
    messages := []
    users := [] }

/-- A string field's value, with JS `undefined` (absent or non-string field)
modelled as the empty value. -/
def strOf : Option JsVal → String
  | some (JsVal.vstr s) => s
  | _ => ""

/-- A username-list field's value, with JS `undefined` modelled as `[]`. -/
def listOf : Option JsVal → List String
  | some (JsVal.vlist xs) => xs
  | _ => []

/-- `[...new Set(xs)]`: deduplication keeping first occurrences in order. -/
def dedupFirst : List String → List String
  | [] => []
  | x :: xs => x :: dedupFirst (xs.filter (fun y => decide (y ≠ x)))
termination_by l => l.length
decreasing_by
  simp only [List.length_cons]
  exact Nat.lt_succ_of_le (List.length_filter_le _ _)

/-- `handleWebSocketMessage` (`App.jsx` lines 40–52): dispatches on
`message.type`.  `code_update` replaces the code buffer, `chat_message`
appends, `user_joined` inserts into the roster via `[...new Set([...prev,
username])]`, `user_left` filters, `room_users` replaces the roster.  Any
other tag — `room_joined` included — falls through and leaves the state
unchanged. -/
def handleWebSocketMessage (st : AppState) (message : JsObj) : AppState :=
  if getField message "type" = some (JsVal.vstr "code_update") then
    { st with code := strOf (getField message "content") }
  else if getField message "type" = some (JsVal.vstr "chat_message") then
    { st with messages := st.messages ++ [message] }
  else if getField message "type" = some (JsVal.vstr "user_joined") then
    { st with users := dedupFirst (st.users ++ [strOf (getField message "username")]) }
  else if getField message "type" = some (JsVal.vstr "user_left") then
    { st with users := st.users.filter (fun u => decide (u ≠ strOf (getField message "username"))) }
  else if getField message "type" = some (JsVal.vstr "room_users") then
    { st with users := listOf (getField message "users") }
  else st

/-- The `join_room` frame `joinRoom` sends. -/
def joinFrame (roomName username : String) : JsObj :=
  [("type", JsVal.vstr "join_room"),
   ("room", JsVal.vstr roomName),
   ("username", JsVal.vstr username)]

/-- `joinRoom` (`App.jsx` lines 96–117): returns early when either argument is
falsy; otherwise sends the `join_room` frame and immediately updates the
local state: `setRoom(roomName)` and
`setCurrentUser(user?.username || username)` (`authUsername` models
`user?.username`).  The second component lists the frames handed to
`websocketService.sendMessage` by this call.  The `localStorage` write and
the loading-spinner flags are UI effects outside this model. -/
def joinRoom (st : AppState) (roomName username : String)
    (authUsername : Option String) : AppState × List JsObj :=
  if username = "" ∨ roomName = "" then (st, [])
  else
    ({ st with
        room := roomName
        currentUser :=
          match authUsername with
          | some u => if u = "" then username else u
          | none => username },
     [joinFrame roomName username])

/-- A sample chat frame, as produced by `sendChatMessage`. -/
def frameA : JsObj :=
  [("event_type", JsVal.vstr "chat_message"), ("content", JsVal.vstr "hello")]

/-- A sample code frame, as produced by `sendCodeMessage`. -/
def frameB : JsObj :=
  [("event_type", JsVal.vstr "code_message"), ("content", JsVal.vstr "x = 1")]

/-- A `room_joined` frame as `App.jsx` would receive it. -/
def roomJoinedFrame : JsObj := [("type", JsVal.vstr "room_joined")]

/-- A registered handler whose invocation throws on every frame. -/
def throwingHandler : Handler := { hid := 0, throwsOn := fun _ => true }

/-- A registered handler whose invocation never throws. -/
def benignHandler : Handler := { hid := 1, throwsOn := fun _ => false }

/-- A connected service state: socket present, channel open, room `"r"`. -/
def connectedService : WSState :=
  { freshService with socket := true, isConnected := true, currentRoom := some "r" }

/- ------------------------------------------------------------------ -/
/- Theorems                                                           -/
/- ------------------------------------------------------------------ -/

theorem getField_filter_self (o : JsObj) (k : String) :
    getField (o.filter (fun p => decide (p.1 ≠ k))) k = none := by
  induction o with
  | nil => rfl
  | cons p rest ih =>
    cases p with
    | mk pk pv =>
      by_cases hp : pk = k
      · simpa [List.filter_cons, hp] using ih
      · simpa [List.filter_cons, hp, getField] using ih

theorem getField_append_left (a b : JsObj) (k : String) (h : getField a k = none) :
    getField (a ++ b) k = getField b k := by
  induction a with
  | nil => rfl
  | cons p rest ih =>
    cases p with
    | mk pk pv =>
      by_cases hp : pk = k
      · simp [getField, hp] at h
      · simp [getField, hp] at h ⊢
        exact ih h

/-- `setField` makes the assigned key read back the assigned value. -/
theorem getField_setField_self (o : JsObj) (k : String) (v : JsVal) :
    getField (setField o k v) k = some v := by
  unfold setField
  rw [getField_append_left _ _ _ (getField_filter_self o k)]
  simp [getField]

/-- `setField` leaves every other key's lookup unchanged. -/
theorem getField_setField_other (o : JsObj) (k k' : String) (v : JsVal)
    (h : k' ≠ k) : getField (setField o k v) k' = getField o k' := by
  unfold setField
  have hks : k ≠ k' := Ne.symm h
  induction o with
  | nil => simp [getField, hks]
  | cons p rest ih =>
    cases p with
    | mk pk pv =>
      by_cases hp : pk = k
      · simp only [List.filter_cons, hp, decide_not, getField]
        simpa [hks] using ih
      · by_cases hk' : pk = k'
        · simp [List.filter_cons, hp, hk', getField, h]
        · simp only [List.filter_cons, hp, decide_not, getField]
          simpa [hk'] using ih

/-- What `flushPendingMessages` does when it is actually run on an open
channel: it drains the queue and transmits every queued frame, in enqueue
order.  The method exists in the source but no code path invokes it. -/
theorem flushPendingMessages_connected_example :
    flushPendingMessages { connectedService with pendingMessages := [frameA, frameB] } "T"
      = some (connectedService,
              [sendPayload frameA "T" (some "r"), sendPayload frameB "T" (some "r")]) := rfl

/-- C1: a frame queued by `send` while no channel is open is claimed to be
transmitted, exactly once and in order, by a flush invoked immediately after
the next successful open.  Evaluating the embedded `onopen` handler on a state
holding one queued frame shows what the code actually does: the open
transition transmits nothing and leaves the frame sitting in
`pendingMessages` — the `flushPendingMessages` call is missing. -/
theorem open_transition_does_not_flush_queue :
    (onOpen { freshService with pendingMessages := [frameA] }).2 = [] ∧
    (onOpen { freshService with pendingMessages := [frameA] }).1.pendingMessages = [frameA] ∧
    (onOpen { freshService with pendingMessages := [frameA] }).1.isConnected = true :=
  ⟨rfl, rfl, rfl⟩

/-- C3: for every reconnection attempt `n` with `1 ≤ n ≤ 5`, the scheduled
delay equals `min(1000 * 2^(n-1), 30000)` ms; the schedule for attempts 1–5 is
`1000, 2000, 4000, 8000, 16000` ms; the attempt limit is 5 and a sixth attempt
is never scheduled. -/
theorem backoff_schedule_correct (n : Nat) (h1 : 1 ≤ n) (h2 : n ≤ 5) :
    scheduledDelay { freshService with reconnectAttempts := n - 1 } (some "tok")
      = some (min (1000 * 2 ^ (n - 1)) 30000) ∧
    (List.range 5).map
        (fun k => scheduledDelay { freshService with reconnectAttempts := k } (some "tok"))
      = [some 1000, some 2000, some 4000, some 8000, some 16000] ∧
    freshService.maxReconnectAttempts = 5 ∧
    scheduledDelay { freshService with reconnectAttempts := 5 } (some "tok") = none := by
  refine ⟨?_, rfl, rfl, rfl⟩
  interval_cases n <;> rfl

theorem backoff_schedule_correct_witness :
    1 ≤ 1 ∧ 1 ≤ 5 ∧
    scheduledDelay { freshService with reconnectAttempts := 1 - 1 } (some "tok")
      = some (min (1000 * 2 ^ (1 - 1)) 30000) :=
  ⟨Nat.le_refl 1, by decide, (backoff_schedule_correct 1 (Nat.le_refl 1) (by decide)).1⟩

/-- C4 counterexample: with three failed attempts on the counter, a deliberate
`disconnect()` leaves the counter at 3, and the next failure schedules an
8000 ms delay, not the base 1000 ms — the claim that the counter resets on
every deliberate disconnect is false on the code. -/
theorem disconnect_keeps_attempt_counter_counterexample :
    (disconnect { freshService with reconnectAttempts := 3 }).reconnectAttempts = 3 ∧
    scheduledDelay (disconnect { freshService with reconnectAttempts := 3 }) (some "tok")
      = some 8000 ∧
    (8000 : Nat) ≠ 1000 :=
  ⟨rfl, rfl, by decide⟩

/-- C4 amended: the reconnect-attempt counter resets to zero on every
successful open (`onopen`), but `disconnect()` leaves it unchanged; after
`disconnect()` followed by `connect()`, a failure waits the carried-over
delay — 8000 ms when three attempts had already been counted — not 1000 ms. -/
theorem reconnect_counter_resets_on_open_only (st : WSState) (tok : String)
    (h3 : st.reconnectAttempts = 3) (hd : st.reconnectDelay = 1000)
    (hm : st.maxReconnectDelay = 30000) (hx : st.maxReconnectAttempts = 5) :
    (onOpen st).1.reconnectAttempts = 0 ∧
    (disconnect st).reconnectAttempts = st.reconnectAttempts ∧
    scheduledDelay (disconnect st) (some tok) = some 8000 := by
  refine ⟨rfl, rfl, ?_⟩
  simp [scheduledDelay, attemptReconnect, disconnect, h3, hd, hm, hx]

theorem reconnect_counter_resets_on_open_only_witness :
    (onOpen { freshService with reconnectAttempts := 3 }).1.reconnectAttempts = 0 ∧
    (disconnect { freshService with reconnectAttempts := 3 }).reconnectAttempts
      = ({ freshService with reconnectAttempts := 3 } : WSState).reconnectAttempts ∧
    scheduledDelay (disconnect { freshService with reconnectAttempts := 3 }) (some "tok")
      = some 8000 :=
  reconnect_counter_resets_on_open_only { freshService with reconnectAttempts := 3 }
    "tok" rfl rfl rfl rfl

/-- C7 counterexample: a `send` while no channel is open appends the frame to
the pending queue but returns `false` — exactly the value returned when a
transmission on an open channel fails — so the "queued" outcome is not
distinct from the failure outcome. -/
theorem queued_send_indistinguishable_from_failure :
    (sendMessage freshService frameA "T" true).1 = false ∧
    (sendMessage freshService frameA "T" true).2.1.pendingMessages = [frameA] ∧
    (sendMessage { freshService with socket := true, isConnected := true } frameA "T" false).1
      = false :=
  ⟨rfl, rfl, rfl⟩

/-- C7 amended: every `sendMessage` call made while no channel is open appends
the frame to the pending queue and returns `false` — the same boolean a failed
transmission returns — so a caller cannot distinguish a queued send from a
failed one by the result. -/
theorem send_while_closed_queues_and_returns_false (st : WSState) (m : JsObj)
    (now : String) (txOk : Bool) (h : st.isConnected = false ∨ st.socket = false) :
    sendMessage st m now txOk
      = (false, { st with pendingMessages := st.pendingMessages ++ [m] }, none) ∧
    ∀ st' m' now', st'.isConnected = true → st'.socket = true →
      (sendMessage st' m' now' false).1 = false := by
  constructor
  · rcases h with h | h <;> simp [sendMessage, h]
  · intro st' m' now' h1 h2
    simp [sendMessage, h1, h2]

theorem send_while_closed_queues_and_returns_false_witness :
    sendMessage freshService frameB "T" true
      = (false, { freshService with pendingMessages := [frameB] }, none) :=
  (send_while_closed_queues_and_returns_false freshService frameB "T" true (Or.inl rfl)).1

/-- C10: if serialization or transmission throws while the channel is open,
`sendMessage` catches the exception and returns `false`; the state (and in
particular the pending queue) is unchanged, nothing is transmitted, and no
retry happens. -/
theorem send_failure_drops_frame (st : WSState) (m : JsObj) (now : String)
    (h1 : st.isConnected = true) (h2 : st.socket = true) :
    sendMessage st m now false = (false, st, none) := by
  simp [sendMessage, h1, h2]

theorem send_failure_drops_frame_witness :
    sendMessage connectedService frameA "T" false = (false, connectedService, none) :=
  send_failure_drops_frame connectedService frameA "T" rfl rfl

/-- C5: if the token provider yields no credential, an empty one, or only an
expired one, `connect` fails immediately with an authentication error reported
via `onError`, never constructs a socket, and schedules no reconnection. -/
theorem connect_without_valid_token_fails_fast
    (stored : Option String) (isExp : String → Bool) (enc : String → String)
    (connectionUrl roomId : String)
    (h : stored = none ∨ stored = some "" ∨ ∃ t, stored = some t ∧ isExp t = true) :
    getAuthToken stored isExp = none ∧
    connectAuthPhase stored isExp enc connectionUrl roomId
      = { outcome := ConnectOutcome.authError
          onErrorCalled := true
          reconnectScheduled := false } ∧
    ∀ url, (connectAuthPhase stored isExp enc connectionUrl roomId).outcome
      ≠ ConnectOutcome.socketCreated url := by
  have hnone : getAuthToken stored isExp = none := by
    rcases h with rfl | rfl | ⟨t, rfl, ht⟩
    · rfl
    · rfl
    · by_cases h0 : t = "" <;> simp [getAuthToken, h0, ht]
  refine ⟨hnone, ?_, ?_⟩
  · simp [connectAuthPhase, hnone]
  · intro url
    simp [connectAuthPhase, hnone]

theorem connect_without_valid_token_fails_fast_witness :
    getAuthToken (some "expired") (fun _ => true) = none ∧
    connectAuthPhase (some "expired") (fun _ => true) id "ws://localhost:8000" "demo-room"
      = { outcome := ConnectOutcome.authError
          onErrorCalled := true
          reconnectScheduled := false } := by
  have h := connect_without_valid_token_fails_fast (some "expired") (fun _ => true) id
    "ws://localhost:8000" "demo-room" (Or.inr (Or.inr ⟨"expired", rfl, rfl⟩))
  exact ⟨h.1, h.2.1⟩

/-- C6 counterexample: with two general handlers registered — the first
throwing, the second benign — dispatching one frame invokes only the first:
handler 1, registered at the start of the round, is never invoked, because the
single `try/catch` around the whole `onmessage` body aborts the round at the
first throw.  The dispatcher itself does not crash. -/
theorem handler_exception_not_isolated_counterexample :
    (onMessage { freshService with messageHandlers := [throwingHandler, benignHandler] }
        (some frameA)).2.invoked = [0] ∧
    1 ∉ (onMessage { freshService with messageHandlers := [throwingHandler, benignHandler] }
        (some frameA)).2.invoked ∧
    (onMessage { freshService with messageHandlers := [throwingHandler, benignHandler] }
        (some frameA)).2.dispatcherCrashed = false :=
  ⟨rfl, by decide, rfl⟩

/-- Running a handler collection whose first throwing element is `h`: the
non-throwing prefix runs, then `h` runs and throws, aborting the loop. -/
theorem runUntilThrow_prefix (data : JsObj) (h : Handler) (post : List Handler)
    (hh : h.throwsOn data = true) :
    ∀ pre : List Handler, (∀ g ∈ pre, g.throwsOn data = false) →
      runUntilThrow (pre ++ h :: post) data = (pre.map Handler.hid ++ [h.hid], true) := by
  intro pre
  induction pre with
  | nil => intro _; simp [runUntilThrow, hh]
  | cons g rest ih =>
    intro hpre
    have hg : g.throwsOn data = false := hpre g (List.mem_cons_self _ _)
    have hrest : ∀ g' ∈ rest, g'.throwsOn data = false :=
      fun g' hg' => hpre g' (List.mem_cons_of_mem _ hg')
    simp [runUntilThrow, hg, ih hrest]

/-- C6 amended: an exception thrown by a handler is caught by the dispatcher's
single `try/catch`, so the dispatcher does not crash; but it aborts the
dispatch round: exactly the handlers before the throwing one plus the throwing
one itself are invoked, and the remaining general handlers and all keyed
handlers are skipped.  The service state is untouched. -/
theorem handler_exception_aborts_round_not_dispatcher (st : WSState)
    (pre : List Handler) (h : Handler) (post : List Handler) (data : JsObj)
    (hst : st.messageHandlers = pre ++ h :: post)
    (hpre : ∀ g ∈ pre, g.throwsOn data = false)
    (hh : h.throwsOn data = true) :
    onMessage st (some data)
      = (st, { invoked := pre.map Handler.hid ++ [h.hid]
               dispatcherCrashed := false
               channelClosed := false }) := by
  have hrun := runUntilThrow_prefix data h post hh pre hpre
  simp [onMessage, hst, hrun]

theorem handler_exception_aborts_round_not_dispatcher_witness :
    onMessage { freshService with messageHandlers := [benignHandler, throwingHandler] }
        (some frameB)
      = ({ freshService with messageHandlers := [benignHandler, throwingHandler] },
         { invoked := [1, 0], dispatcherCrashed := false, channelClosed := false }) :=
  handler_exception_aborts_round_not_dispatcher
    { freshService with messageHandlers := [benignHandler, throwingHandler] }
    [benignHandler] throwingHandler [] frameB rfl
    (by intro g hg; rw [List.mem_singleton] at hg; subst hg; rfl) rfl

/-- C8: an inbound payload that fails to parse (`JSON.parse` throws, modelled
by `raw = none`) is logged and dropped: no handler runs, the dispatcher does
not crash, nothing closes the channel, and the whole service state — socket,
`isConnected`, registered handlers, queue — is exactly as before. -/
theorem malformed_payload_logged_and_dropped (st : WSState) :
    onMessage st none
      = (st, { invoked := [], dispatcherCrashed := false, channelClosed := false }) := rfl

/-- C9: a frame transmitted on an open channel is not the caller's frame
verbatim: the serialized payload carries `timestamp := now` and
`room_id := currentRoom`, overwriting any caller-supplied values of those two
fields, while every other field reads back unchanged; whenever the caller's
`timestamp` differs from `now`, the payload differs from the caller's frame. -/
theorem transmit_merges_timestamp_and_room (st : WSState) (m : JsObj) (now : String)
    (h1 : st.isConnected = true) (h2 : st.socket = true) :
    ∃ p, (sendMessage st m now true).2.2 = some p ∧
      getField p "timestamp" = some (JsVal.vstr now) ∧
      getField p "room_id" = some (roomVal st.currentRoom) ∧
      (∀ k, k ≠ "timestamp" → k ≠ "room_id" → getField p k = getField m k) ∧
      (getField m "timestamp" ≠ some (JsVal.vstr now) → p ≠ m) := by
  have hts : getField (sendPayload m now st.currentRoom) "timestamp"
      = some (JsVal.vstr now) := by
    unfold sendPayload
    rw [getField_setField_other _ _ _ _ (by decide)]
    exact getField_setField_self _ _ _
  refine ⟨sendPayload m now st.currentRoom, ?_, hts, ?_, ?_, ?_⟩
  · simp [sendMessage, h1, h2]
  · exact getField_setField_self _ _ _
  · intro k hk1 hk2
    unfold sendPayload
    rw [getField_setField_other _ _ _ _ hk2, getField_setField_other _ _ _ _ hk1]
  · intro hne heq
    exact hne (by rw [← heq]; exact hts)

theorem transmit_merges_timestamp_and_room_witness :
    ((sendMessage connectedService
        [("timestamp", JsVal.vstr "OLD"), ("room_id", JsVal.vstr "evil"),
         ("content", JsVal.vstr "hi")] "NOW" true).2.2).isSome = true := by
  obtain ⟨p, hp, -⟩ := transmit_merges_timestamp_and_room connectedService
    [("timestamp", JsVal.vstr "OLD"), ("room_id", JsVal.vstr "evil"),
     ("content", JsVal.vstr "hi")] "NOW" rfl rfl
  rw [hp]
  rfl

/-- C2 counterexample: `joinRoom` flips the room state immediately, with no
`room_joined` frame ever received; and delivering a `room_joined` frame —
whether before or after the join — leaves the App state exactly unchanged, so
`room_joined` is not what flips the state. -/
theorem room_joined_not_the_authority_counterexample :
    handleWebSocketMessage initialAppState roomJoinedFrame = initialAppState ∧
    (joinRoom initialAppState "room1" "alice" none).1.room = "room1" ∧
    (joinRoom initialAppState "room1" "alice" none).2 = [joinFrame "room1" "alice"] ∧
    handleWebSocketMessage (joinRoom initialAppState "room1" "alice" none).1 roomJoinedFrame
      = (joinRoom initialAppState "room1" "alice" none).1 :=
  ⟨rfl, rfl, rfl, rfl⟩

/-- C2 amended: the join is optimistic — `joinRoom` with a non-empty room and
username sends the `join_room` frame and sets the room state in the same call,
without waiting for confirmation — and `handleWebSocketMessage` has no
`room_joined` case at all: receiving `room_joined` in any state (so in
particular a duplicate) leaves the state unchanged. -/
theorem join_is_optimistic_room_joined_ignored (st : AppState)
    (roomName username : String) (h1 : roomName ≠ "") (h2 : username ≠ "") :
    (joinRoom st roomName username none).1.room = roomName ∧
    (joinRoom st roomName username none).2 = [joinFrame roomName username] ∧
    ∀ s : AppState, handleWebSocketMessage s roomJoinedFrame = s := by
  refine ⟨?_, ?_, fun s => rfl⟩
  · simp [joinRoom, h1, h2]
  · simp [joinRoom, h1, h2]

theorem join_is_optimistic_room_joined_ignored_witness :
    (joinRoom initialAppState "room2" "bob" none).1.room = "room2" ∧
    (joinRoom initialAppState "room2" "bob" none).2 = [joinFrame "room2" "bob"] := by
  have h := join_is_optimistic_room_joined_ignored initialAppState "room2" "bob"
    (by decide) (by decide)
  exact ⟨h.1, h.2.1⟩
